import Mathlib

/-!
Shallow embedding of the double-buffered video player of `src/App.tsx`
(the `SeamlessPlayer` component), together with proofs about its advance
protocol.

The two expo-av `Video` refs are modelled as two coordinator-owned surface
records (`playerA`, `playerB`).  The asynchronous media calls `loadAsync`,
`playAsync`, `stopAsync` and `unloadAsync` are modelled by their effect on
the corresponding surface record, and every command issued by `handleTap`
is also recorded in an event trace so that ordering properties can be
stated.  React state updates (`setActivePlayerId`, `setCurrentIndex`) are
modelled as direct field updates, recorded in the trace as well.
-/

namespace VideoApp

/-- Phase of one playback surface: `Ready` means a clip is loaded and
paused, `Playing` means visible looping playback, `Empty` means no clip is
loaded (no decoder resources held). -/
inductive Phase
  | Empty
  | Ready
  | Playing
deriving DecidableEq, Repr

/-- One expo-av video surface: which playlist index is loaded (if any),
and the playback phase. -/
structure Surface where
  loaded : Option Nat
  phase : Phase
deriving DecidableEq, Repr

/-- Commands and UI-state updates issued by `handleTap`, in issue order:
`play i` is `playAsync` on player `i` (line 107), `setActive` / `setCursor`
are the state updates of lines 110-111, `stop i` is `stopAsync`
(line 114), `load i c` is `loadAsync` of clip `c` into player `i`
(line 119), `unload i` is `unloadAsync` (line 124), and `exit` is the
`onExit()` callback invocation (line 97). -/
inductive Event
  | play (sid : Nat)
  | setActive (sid : Nat)
  | setCursor (i : Nat)
  | stop (sid : Nat)
  | load (sid : Nat) (clip : Nat)
  | unload (sid : Nat)
  | exit
deriving DecidableEq, Repr

/-- Mutable state of `SeamlessPlayer` (src/App.tsx lines 52-61): the
playlist cursor `currentIndex`, the id of the visible player
`activePlayerId` (0 = player A, 1 = player B), the two surfaces behind
`playerARef` / `playerBRef`, and how many times the `onExit` callback has
been invoked in this session. -/
structure PlayerState where
  currentIndex : Nat
  activePlayerId : Nat
  playerA : Surface
  playerB : Surface
  exitCount : Nat
deriving DecidableEq, Repr

/-- The surface behind player id `i` (0 = A, otherwise B). -/
def player (s : PlayerState) (i : Nat) : Surface :=
  if i = 0 then s.playerA else s.playerB

/-- Replace the surface behind player id `i`. -/
def setPlayer (s : PlayerState) (i : Nat) (p : Surface) : PlayerState :=
  if i = 0 then { s with playerA := p } else { s with playerB := p }

/-- The player-id swap `activePlayerId === 0 ? 1 : 0` of line 102, also
used to pick the previous player's ref on lines 103-104. -/
def otherId (i : Nat) : Nat := if i = 0 then 1 else 0

/-- The opacity the presentation layer gives the layer of player `i`
(lines 145 and 156: `opacity: activePlayerId === i ? 1 : 0`). -/
def opacity (s : PlayerState) (i : Nat) : Nat :=
  if s.activePlayerId = i then 1 else 0

/-- Number of surfaces currently in phase `Playing`. -/
def playingCount (s : PlayerState) : Nat :=
  (if s.playerA.phase = Phase.Playing then 1 else 0) +
  (if s.playerB.phase = Phase.Playing then 1 else 0)

/-- Whether the session has signalled exit (the terminal Finished state:
`onExit` has been called, after which the host unmounts the player). -/
def isFinished (s : PlayerState) : Bool := s.exitCount != 0

/-- State of the session at the first suspension point of an advance:
`playAsync` on the standby player has been issued and resolved (line 107),
but the state updates of lines 110-111 and everything after them have not
run yet.  The standby surface keeps its loaded clip and starts playing. -/
def midAdvance (s : PlayerState) : PlayerState :=
  let nextActiveId := otherId s.activePlayerId
  setPlayer s nextActiveId ⟨(player s nextActiveId).loaded, Phase.Playing⟩

/-- Remainder of `handleTap` after the `playAsync` await (lines 110-125):
publish the new active id and cursor, `stopAsync` the previous player
(keeps its clip loaded, resets position to start), then either `loadAsync`
the clip at `futureIndex` into the previous player (preload, not playing)
or `unloadAsync` it when there is nothing left to preload. -/
def tapRest (N nextActiveId prevId nextIndex : Nat) (s : PlayerState) :
    PlayerState × List Event :=
  let s2 := { s with activePlayerId := nextActiveId, currentIndex := nextIndex }
  let s3 := setPlayer s2 prevId ⟨(player s2 prevId).loaded, Phase.Ready⟩
  let futureIndex := nextIndex + 1
  if futureIndex < N then
    (setPlayer s3 prevId ⟨some futureIndex, Phase.Ready⟩,
     [Event.setActive nextActiveId, Event.setCursor nextIndex,
      Event.stop prevId, Event.load prevId futureIndex])
  else
    (setPlayer s3 prevId ⟨none, Phase.Empty⟩,
     [Event.setActive nextActiveId, Event.setCursor nextIndex,
      Event.stop prevId, Event.unload prevId])

/-- Shallow embedding of `handleTap` (src/App.tsx lines 92-126) for a
playlist of length `N`.  `playRejects` models the promise returned by
`playAsync` on the standby player rejecting: in that case the rest of the
async function body never runs, no state changes, and the rejection is
unhandled (the `onPress` caller ignores the returned promise), so nothing
is reported anywhere.  There is no retry in the source. -/
def handleTapP (N : Nat) (playRejects : Bool) (s : PlayerState) :
    PlayerState × List Event :=
  let nextIndex := s.currentIndex + 1
  if N ≤ nextIndex then
    ({ s with exitCount := s.exitCount + 1 }, [Event.exit])
  else
    let nextActiveId := otherId s.activePlayerId
    let prevId := otherId nextActiveId
    if playRejects then
      (s, [Event.play nextActiveId])
    else
      let r := tapRest N nextActiveId prevId nextIndex (midAdvance s)
      (r.1, Event.play nextActiveId :: r.2)

/-- One tap with `playAsync` succeeding (the normal path). -/
def handleTap (N : Nat) (s : PlayerState) : PlayerState × List Event :=
  handleTapP N false s

/-- Two taps dispatched while the first advance is suspended at the
`playAsync` await of line 107.  No re-render has happened yet, so the
second handler invocation still reads the pre-update `currentIndex` and
`activePlayerId` from its closure and computes the same indices; each
invocation then runs its remaining steps in turn.  The source has no guard
preventing this interleaving.  (The end-of-playlist branch contains no
suspension point before `onExit`, so taps cannot interleave inside it;
that branch is the single-tap behaviour.) -/
def twoTapsInterleaved (N : Nat) (s : PlayerState) : PlayerState × List Event :=
  let nextIndex := s.currentIndex + 1
  if N ≤ nextIndex then
    handleTapP N false s
  else
    let nextActiveId := otherId s.activePlayerId
    let prevId := otherId nextActiveId
    let sB := midAdvance (midAdvance s)
    let r1 := tapRest N nextActiveId prevId nextIndex sB
    let r2 := tapRest N nextActiveId prevId nextIndex r1.1
    (r2.1, Event.play nextActiveId :: Event.play nextActiveId :: (r1.2 ++ r2.2))

/-- The intended initial session state of the dual-preload design for an
`N`-clip playlist: cursor 0 and player A active — the `useState(0)`
initial values of lines 52 and 61 — with player A playing clip 0 and
player B holding clip 1 preloaded when it exists.  This is the state the
loading phase is written to produce (the comments at lines 77 and 82 say
so) and the baseline state in which the advance protocol of `handleTap`
is exercised.  It is not the state the source actually reaches at mount
time: the initial `loadAsync` calls are skipped because both refs are
null while the loading screen renders — see `mountState` and
`initializingOutcome`. -/
def initState (N : Nat) : PlayerState :=
  { currentIndex := 0
    activePlayerId := 0
    playerA := ⟨some 0, Phase.Playing⟩
    playerB := if 1 < N then ⟨some 1, Phase.Ready⟩ else ⟨none, Phase.Empty⟩
    exitCount := 0 }

/-- One user tap at session level: after `onExit` has fired the host sets
`isPlaying` to false and unmounts `SeamlessPlayer` (line 247), so further
taps never reach `handleTap`; before that, a tap runs `handleTap` with
`playAsync` succeeding. -/
def sessionStep (N : Nat) (s : PlayerState) : PlayerState :=
  if s.exitCount = 0 then (handleTap N s).1 else s

/-- Session state after `k` sequential taps (each advance completing
before the next tap) on an `N`-clip playlist. -/
def runTaps (N : Nat) : Nat → PlayerState
  | 0 => initState N
  | k + 1 => sessionStep N (runTaps N k)

/-- Outcome of the initial load sequence as observable by the host:
whether `isReady` ever becomes true, and how many error reports reach the
host. -/
structure InitResult where
  ready : Bool
  errorsSurfaced : Nat
deriving DecidableEq, Repr

/-- Success/failure behaviour of `loadInitialVideos` (src/App.tsx lines
68-90).  `refA` / `refB` say whether `playerARef.current` /
`playerBRef.current` are non-null when the guards of lines 78 and 83 run;
`load0Ok` / `load1Ok` say whether the guarded `loadAsync` calls would
resolve if issued.  A `loadAsync` is issued only when its ref is attached
and the playlist item exists; a rejected `await` aborts the async
function before `setIsReady(true)` runs.  The body contains no try/catch
and no host-facing error report of any kind, so `errorsSurfaced` is 0 on
every path. -/
def loadInitialVideos (N : Nat) (refA refB load0Ok load1Ok : Bool) : InitResult :=
  if refA = true ∧ 1 ≤ N ∧ load0Ok = false then ⟨false, 0⟩
  else if refB = true ∧ 2 ≤ N ∧ load1Ok = false then ⟨false, 0⟩
  else ⟨true, 0⟩

/-- Outcome of `loadInitialVideos` as it is actually invoked in the
source.  The mount effect of lines 64-66 runs while `isReady` is still
false, and in that phase the component returns the loading screen early
(lines 128-138) without mounting either `Video`, so `playerARef.current`
and `playerBRef.current` are both null: neither guard passes, neither
`loadAsync` is issued, and the function always reaches
`setLoadingProgress(100)` and `setIsReady(true)`. -/
def initializingOutcome (N : Nat) (load0Ok load1Ok : Bool) : InitResult :=
  loadInitialVideos N false false load0Ok load1Ok

/-- The session state when `isReady` becomes true in the source: cursor 0
and player 0 active (the `useState(0)` values of lines 52 and 61), and —
because neither `loadAsync` was issued during the loading phase, the refs
being null (see `initializingOutcome`) — both `Video` components mount
with no source loaded, so both surfaces are empty and nothing is
playing. -/
def mountState : PlayerState :=
  { currentIndex := 0
    activePlayerId := 0
    playerA := ⟨none, Phase.Empty⟩
    playerB := ⟨none, Phase.Empty⟩
    exitCount := 0 }

/-- Values published by the fake-progress interval of lines 70-75, when at
most `fuel` ticks fire before both loads resolve and line 87 clears the
interval.  Each tick adds 10 to `progress`, clears the interval once the
new value exceeds 80, and publishes the new value in either case (the
`setLoadingProgress` call runs after the `clearInterval`). -/
def runInterval (progress fuel : Nat) : List Nat :=
  match fuel with
  | 0 => []
  | f + 1 =>
    let p := progress + 10
    if 80 < p then [p] else p :: runInterval p f

/-- The full sequence of loading-progress values published during a
successful Initializing: the initial `useState(0)` value, the interval
ticks, then the final `setLoadingProgress(100)` of line 88. -/
def publishedProgress (fuel : Nat) : List Nat :=
  0 :: (runInterval 0 fuel ++ [100])

/-! Projection lemmas: surface writes do not touch the cursor, the active
id or the exit count, and the two parts of an advance publish the expected
cursor and active id. -/

@[simp] theorem setPlayer_currentIndex (s : PlayerState) (i : Nat) (p : Surface) :
    (setPlayer s i p).currentIndex = s.currentIndex := by
  unfold setPlayer; split <;> rfl

@[simp] theorem setPlayer_activePlayerId (s : PlayerState) (i : Nat) (p : Surface) :
    (setPlayer s i p).activePlayerId = s.activePlayerId := by
  unfold setPlayer; split <;> rfl

@[simp] theorem setPlayer_exitCount (s : PlayerState) (i : Nat) (p : Surface) :
    (setPlayer s i p).exitCount = s.exitCount := by
  unfold setPlayer; split <;> rfl

@[simp] theorem midAdvance_currentIndex (s : PlayerState) :
    (midAdvance s).currentIndex = s.currentIndex := by
  unfold midAdvance; simp

@[simp] theorem midAdvance_activePlayerId (s : PlayerState) :
    (midAdvance s).activePlayerId = s.activePlayerId := by
  unfold midAdvance; simp

@[simp] theorem midAdvance_exitCount (s : PlayerState) :
    (midAdvance s).exitCount = s.exitCount := by
  unfold midAdvance; simp

@[simp] theorem tapRest_currentIndex (N nid pid ni : Nat) (s : PlayerState) :
    (tapRest N nid pid ni s).1.currentIndex = ni := by
  simp only [tapRest]; split <;> simp

@[simp] theorem tapRest_activePlayerId (N nid pid ni : Nat) (s : PlayerState) :
    (tapRest N nid pid ni s).1.activePlayerId = nid := by
  simp only [tapRest]; split <;> simp

@[simp] theorem tapRest_exitCount (N nid pid ni : Nat) (s : PlayerState) :
    (tapRest N nid pid ni s).1.exitCount = s.exitCount := by
  simp only [tapRest]; split <;> simp

theorem player_setPlayer_same (s : PlayerState) (i : Nat) (p : Surface) :
    player (setPlayer s i p) i = p := by
  unfold player setPlayer; split <;> simp_all

theorem player_setPlayer_other (s : PlayerState) (i j : Nat) (p : Surface)
    (hij : i ≠ j) (hi : i ≤ 1) (hj : j ≤ 1) :
    player (setPlayer s i p) j = player s j := by
  unfold player setPlayer
  rcases (by omega : i = 0 ∧ j = 1 ∨ i = 1 ∧ j = 0) with ⟨h1, h2⟩ | ⟨h1, h2⟩ <;>
    subst h1 <;> subst h2 <;> simp

/-! Cursor and exit-count behaviour of sequential taps. -/

theorem runTaps_cursor (N : Nat) : ∀ k, k < N →
    (runTaps N k).currentIndex = k ∧ (runTaps N k).exitCount = 0 := by
  intro k
  induction k with
  | zero => intro _; simp [runTaps, initState]
  | succ k ih =>
    intro hk
    obtain ⟨hc, he⟩ := ih (by omega)
    show (sessionStep N (runTaps N k)).currentIndex = k + 1 ∧
      (sessionStep N (runTaps N k)).exitCount = 0
    rw [sessionStep, if_pos he, handleTap, handleTapP]
    simp only [hc, he]
    rw [if_neg (by omega : ¬ N ≤ k + 1)]
    simp [he]

theorem runTaps_freeze (N k : Nat) (h : (runTaps N k).exitCount ≠ 0) :
    runTaps N (k + 1) = runTaps N k := by
  show sessionStep N (runTaps N k) = runTaps N k
  rw [sessionStep, if_neg h]

theorem runTaps_finish (N : Nat) (h : 1 ≤ N) :
    (runTaps N N).exitCount = 1 := by
  obtain ⟨k, rfl⟩ : ∃ k, N = k + 1 := ⟨N - 1, by omega⟩
  obtain ⟨hc, he⟩ := runTaps_cursor (k + 1) k (by omega)
  show (sessionStep (k + 1) (runTaps (k + 1) k)).exitCount = 1
  rw [sessionStep, if_pos he]
  simp [handleTap, handleTapP, hc, he]

theorem runTaps_after (N j : Nat) (h : 1 ≤ N) (hj : N ≤ j) :
    (runTaps N j).exitCount = 1 := by
  induction j, hj using Nat.le_induction with
  | base => exact runTaps_finish N h
  | succ j hj ih => rw [runTaps_freeze N j (by omega)]; exact ih

/-! Invariant of quiescent session states: the active id is 0 or 1 and in
range, the active surface is playing the clip at the cursor, and the other
surface holds the next clip preloaded when one exists and is empty
otherwise. -/

def Inv (N : Nat) (s : PlayerState) : Prop :=
  s.activePlayerId ≤ 1 ∧ s.currentIndex < N ∧
  player s s.activePlayerId = ⟨some s.currentIndex, Phase.Playing⟩ ∧
  player s (otherId s.activePlayerId) =
    (if s.currentIndex + 1 < N then ⟨some (s.currentIndex + 1), Phase.Ready⟩
     else ⟨none, Phase.Empty⟩)

theorem inv_init (N : Nat) (h : 1 ≤ N) : Inv N (initState N) := by
  refine ⟨by simp [initState], by simpa [initState] using h, ?_, ?_⟩ <;>
    simp [initState, player, otherId]

theorem inv_step (N : Nat) (s : PlayerState) (hInv : Inv N s) :
    Inv N (sessionStep N s) := by
  obtain ⟨ha, hc, hact, hstb⟩ := hInv
  by_cases he : s.exitCount = 0
  · rw [sessionStep, if_pos he]
    by_cases hend : N ≤ s.currentIndex + 1
    · rw [handleTap, handleTapP]
      simp only []
      rw [if_pos hend]
      exact ⟨ha, hc, hact, hstb⟩
    · rw [if_pos (by omega : s.currentIndex + 1 < N)] at hstb
      rcases (by omega : s.activePlayerId = 0 ∨ s.activePlayerId = 1) with h0 | h0 <;>
        rw [h0] at hact hstb
      · have hA : s.playerA = ⟨some s.currentIndex, Phase.Playing⟩ := hact
        have hB : s.playerB = ⟨some (s.currentIndex + 1), Phase.Ready⟩ := hstb
        by_cases hf : s.currentIndex + 1 + 1 < N <;>
          refine ⟨?_, ?_, ?_, ?_⟩ <;>
            simp [handleTap, handleTapP, tapRest, midAdvance, setPlayer, player,
              otherId, hend, hf, h0, hA, hB] <;> omega
      · have hB : s.playerB = ⟨some s.currentIndex, Phase.Playing⟩ := hact
        have hA : s.playerA = ⟨some (s.currentIndex + 1), Phase.Ready⟩ := hstb
        by_cases hf : s.currentIndex + 1 + 1 < N <;>
          refine ⟨?_, ?_, ?_, ?_⟩ <;>
            simp [handleTap, handleTapP, tapRest, midAdvance, setPlayer, player,
              otherId, hend, hf, h0, hA, hB] <;> omega
  · rw [sessionStep, if_neg he]
    exact ⟨ha, hc, hact, hstb⟩

theorem inv_runTaps (N : Nat) (h : 1 ≤ N) : ∀ k, Inv N (runTaps N k) := by
  intro k
  induction k with
  | zero => exact inv_init N h
  | succ k ih => exact inv_step N (runTaps N k) ih

/-! Monotonicity of the interval-published progress values. -/

theorem runInterval_chain (f : Nat) : ∀ p, p ≤ 90 →
    List.Chain (fun a b => a ≤ b) p (runInterval p f ++ [100]) := by
  induction f with
  | zero =>
    intro p hp
    have hone : List.Chain (fun a b => a ≤ b) p [100] :=
      List.Chain.cons (by omega) List.Chain.nil
    simpa [runInterval] using hone
  | succ f ih =>
    intro p hp
    by_cases h8 : 80 < p + 10
    · have htwo : List.Chain (fun a b => a ≤ b) p [p + 10, 100] :=
        List.Chain.cons (by omega) (List.Chain.cons (by omega) List.Chain.nil)
      simpa [runInterval, if_pos h8] using htwo
    · simp only [runInterval, if_neg h8, List.cons_append, List.chain_cons]
      exact ⟨by omega, ih (p + 10) (by omega)⟩

theorem getLast?_append_singleton (l : List Nat) (x : Nat) :
    (l ++ [x]).getLast? = some x := by
  induction l with
  | nil => rfl
  | cons a l ih =>
    cases l with
    | nil => rfl
    | cons b t => simpa using ih

/-- C1: for every advance triggered with a next clip available, the
coordinator awaits `playAsync` on the standby player before it publishes
the new active id and cursor, and publishes them before it calls
`stopAsync` on the previously active player: the trace of one advance is
exactly play-next, set active id, set cursor, stop-previous, then the
preload or unload, in this fixed order. -/
theorem advance_event_order (N : Nat) (s : PlayerState)
    (h : s.currentIndex + 1 < N) :
    (handleTap N s).2 =
      [Event.play (otherId s.activePlayerId),
       Event.setActive (otherId s.activePlayerId),
       Event.setCursor (s.currentIndex + 1),
       Event.stop (otherId (otherId s.activePlayerId)),
       if s.currentIndex + 1 + 1 < N then
         Event.load (otherId (otherId s.activePlayerId)) (s.currentIndex + 1 + 1)
       else
         Event.unload (otherId (otherId s.activePlayerId))] := by
  have hn : ¬ N ≤ s.currentIndex + 1 := by omega
  by_cases hf : s.currentIndex + 1 + 1 < N <;>
    simp [handleTap, handleTapP, tapRest, hf, hn]

/-- Witness for C1: the first advance of a two-clip session. -/
theorem advance_event_order_witness :
    (initState 2).currentIndex + 1 < 2 ∧
    (handleTap 2 (initState 2)).2 =
      [Event.play (otherId (initState 2).activePlayerId),
       Event.setActive (otherId (initState 2).activePlayerId),
       Event.setCursor ((initState 2).currentIndex + 1),
       Event.stop (otherId (otherId (initState 2).activePlayerId)),
       if (initState 2).currentIndex + 1 + 1 < 2 then
         Event.load (otherId (otherId (initState 2).activePlayerId))
           ((initState 2).currentIndex + 1 + 1)
       else
         Event.unload (otherId (otherId (initState 2).activePlayerId))] :=
  ⟨by decide, advance_event_order 2 (initState 2) (by decide)⟩

/-- C2 counterexample: for a playlist of one clip, after N - 1 = 0 advance
triggers the session is not Finished and `onExit` has not fired; the first
trigger is still required, and after it `onExit` has fired once. -/
theorem finish_requires_n_taps_cex :
    isFinished (runTaps 1 0) = false ∧ (runTaps 1 0).exitCount = 0 ∧
    isFinished (runTaps 1 1) = true ∧ (runTaps 1 1).exitCount = 1 := by
  decide

/-- C2 (amended): for every playlist of length N ≥ 1, exactly N advance
triggers are required to reach Finished — after any k < N sequential taps
`onExit` has not fired, and after any k ≥ N taps it has fired exactly once
(the host unmounts the player on exit, so later taps never reach
`handleTap`). -/
theorem session_exit_count (N k : Nat) (h : 1 ≤ N) :
    (k < N → (runTaps N k).exitCount = 0) ∧
    (N ≤ k → (runTaps N k).exitCount = 1) :=
  ⟨fun hk => (runTaps_cursor N k hk).2, fun hk => runTaps_after N k h hk⟩

/-- Witness for C2 at a two-clip session after two taps. -/
theorem session_exit_count_witness :
    1 ≤ 2 ∧ ((2 < 2 → (runTaps 2 2).exitCount = 0) ∧
      (2 ≤ 2 → (runTaps 2 2).exitCount = 1)) :=
  ⟨by decide, session_exit_count 2 2 (by decide)⟩

/-- C3 counterexample: on a two-clip session whose advance has `playAsync`
reject, `handleTap` issues exactly one play attempt — there is no retry,
while the claim requires a second attempt — and nothing is reported
upward: the trace is the single play command and the state is completely
unchanged. -/
theorem play_failure_no_retry_cex :
    (handleTapP 2 true (initState 2)).2 = [Event.play 1] ∧
    (handleTapP 2 true (initState 2)).2.count (Event.play 1) = 1 ∧
    ¬ (handleTapP 2 true (initState 2)).2.count (Event.play 1) = 2 ∧
    (handleTapP 2 true (initState 2)).1 = initState 2 := by
  decide

/-- C3 (amended): when `playAsync` on the standby surface rejects, the
coordinator performs no retry and reports nothing upward (the rejection is
unhandled); the advance aborts with the whole session state — cursor,
active id and both surfaces, in particular the still-playing previously
active surface — unchanged, and the trace holds only the one play
attempt. -/
theorem play_failure_aborts_advance (N : Nat) (s : PlayerState)
    (h : s.currentIndex + 1 < N) :
    (handleTapP N true s).1 = s ∧
    (handleTapP N true s).2 = [Event.play (otherId s.activePlayerId)] := by
  have hn : ¬ N ≤ s.currentIndex + 1 := by omega
  refine ⟨?_, ?_⟩ <;> simp [handleTapP, hn, ite_true]

/-- Witness for C3 (amended) on a two-clip session. -/
theorem play_failure_aborts_advance_witness :
    (initState 2).currentIndex + 1 < 2 ∧
    ((handleTapP 2 true (initState 2)).1 = initState 2 ∧
     (handleTapP 2 true (initState 2)).2 =
       [Event.play (otherId (initState 2).activePlayerId)]) :=
  ⟨by decide, play_failure_aborts_advance 2 (initState 2) (by decide)⟩

/-- C4: the source has no re-entrancy guard.  On a 3-clip playlist, a
second tap dispatched while the first advance is suspended at the
`playAsync` await re-runs `handleTap` with the stale pre-update state, so
every surface command of the advance is issued twice — two `playAsync`,
two `stopAsync` and two `loadAsync` calls — where a single advance issues
each exactly once, contradicting "no additional surface command beyond the
one in-flight advance". -/
theorem reentrant_tap_duplicates_commands :
    (twoTapsInterleaved 3 (initState 3)).2.count (Event.play 1) = 2 ∧
    (twoTapsInterleaved 3 (initState 3)).2.count (Event.stop 0) = 2 ∧
    (twoTapsInterleaved 3 (initState 3)).2.count (Event.load 0 2) = 2 ∧
    (handleTap 3 (initState 3)).2.count (Event.play 1) = 1 ∧
    (handleTap 3 (initState 3)).2.count (Event.stop 0) = 1 ∧
    (handleTap 3 (initState 3)).2.count (Event.load 0 2) = 1 := by
  decide

/-- C5: a trigger arriving with the last clip visible (`nextIndex ≥ N`)
transitions to Finished and invokes `onExit`, issues no surface operation
at all, and leaves cursor, active id and both surfaces unchanged — the
resulting state differs from the previous one only in the exit count, and
the trace holds only the exit signal. -/
theorem tap_on_last_clip_exits (N : Nat) (s : PlayerState)
    (h : N ≤ s.currentIndex + 1) :
    (handleTap N s).1 = { s with exitCount := s.exitCount + 1 } ∧
    isFinished (handleTap N s).1 = true ∧
    (handleTap N s).2 = [Event.exit] := by
  refine ⟨?_, ?_, ?_⟩ <;> simp [handleTap, handleTapP, isFinished, h]

/-- Witness for C5: scenario A, a playlist of one clip, first tap. -/
theorem tap_on_last_clip_exits_witness :
    1 ≤ (initState 1).currentIndex + 1 ∧
    ((handleTap 1 (initState 1)).1 =
        { initState 1 with exitCount := (initState 1).exitCount + 1 } ∧
     isFinished (handleTap 1 (initState 1)).1 = true ∧
     (handleTap 1 (initState 1)).2 = [Event.exit]) :=
  ⟨by decide, tap_on_last_clip_exits 1 (initState 1) (by decide)⟩

/-- C6: a successful advance moves the cursor to `nextIndex`, toggles the
active id, and leaves the now-standby (previously active) surface holding
the clip at `futureIndex = nextIndex + 1` preloaded in phase `Ready` when
`futureIndex < N`, and unloaded (`Empty`) exactly when the new current
clip is the last; the final command of the advance is the corresponding
`loadAsync` or `unloadAsync`. -/
theorem advance_preloads_future (N : Nat) (s : PlayerState)
    (h : s.currentIndex + 1 < N) (ha : s.activePlayerId ≤ 1) :
    (handleTap N s).1.currentIndex = s.currentIndex + 1 ∧
    (handleTap N s).1.activePlayerId = otherId s.activePlayerId ∧
    player (handleTap N s).1 s.activePlayerId =
      (if s.currentIndex + 1 + 1 < N then
        ⟨some (s.currentIndex + 1 + 1), Phase.Ready⟩
       else ⟨none, Phase.Empty⟩) ∧
    (handleTap N s).2.getLast? =
      some (if s.currentIndex + 1 + 1 < N then
        Event.load s.activePlayerId (s.currentIndex + 1 + 1)
       else Event.unload s.activePlayerId) := by
  have hn : ¬ N ≤ s.currentIndex + 1 := by omega
  rcases (by omega : s.activePlayerId = 0 ∨ s.activePlayerId = 1) with h0 | h0 <;>
    by_cases hf : s.currentIndex + 1 + 1 < N <;>
      refine ⟨?_, ?_, ?_, ?_⟩ <;>
        simp [handleTap, handleTapP, tapRest, midAdvance, setPlayer, player,
          otherId, h0, hf, hn]

/-- Witness for C6: the first advance of a four-clip session. -/
theorem advance_preloads_future_witness :
    ((initState 4).currentIndex + 1 < 4 ∧ (initState 4).activePlayerId ≤ 1) ∧
    ((handleTap 4 (initState 4)).1.currentIndex = (initState 4).currentIndex + 1 ∧
     (handleTap 4 (initState 4)).1.activePlayerId =
       otherId (initState 4).activePlayerId ∧
     player (handleTap 4 (initState 4)).1 (initState 4).activePlayerId =
       (if (initState 4).currentIndex + 1 + 1 < 4 then
         ⟨some ((initState 4).currentIndex + 1 + 1), Phase.Ready⟩
        else ⟨none, Phase.Empty⟩) ∧
     (handleTap 4 (initState 4)).2.getLast? =
       some (if (initState 4).currentIndex + 1 + 1 < 4 then
         Event.load (initState 4).activePlayerId ((initState 4).currentIndex + 1 + 1)
        else Event.unload (initState 4).activePlayerId)) :=
  ⟨⟨by decide, by decide⟩,
    advance_preloads_future 4 (initState 4) (by decide) (by decide)⟩

/-- C7: the claimed invariant — exactly one surface in phase `Playing`
after Ready is first reached, and that surface the opaque one — fails at
the very first observable instant after `isReady` becomes true: the
initial `loadAsync` calls were never issued (the refs are null while the
loading screen renders), so both `Video` components mount with no clip
loaded, both surfaces are `Empty`, and the number of `Playing` surfaces
is 0, not 1.  The active (opaque) surface is not playing either. -/
theorem no_playing_at_ready :
    playingCount mountState = 0 ∧
    player mountState 0 = ⟨none, Phase.Empty⟩ ∧
    player mountState 1 = ⟨none, Phase.Empty⟩ ∧
    opacity mountState 0 = 1 ∧
    ¬ (player mountState mountState.activePlayerId).phase = Phase.Playing := by
  decide

/-- Supporting analysis for the intended design: had the dual preload of
the loading phase produced its intended state (`initState`, the state the
comments at lines 77 and 82 describe), the advance protocol of
`handleTap` would maintain the one-playing invariant at every quiescent
state — exactly one surface `Playing`, a surface `Playing` exactly when
its layer is rendered opaque, and the non-active surface `Ready` or
`Empty`.  The advance protocol itself is consistent with the invariant;
only the initial loading is broken. -/
theorem intended_state_one_playing (N k : Nat) (h : 1 ≤ N) :
    playingCount (runTaps N k) = 1 ∧
    ((player (runTaps N k) 0).phase = Phase.Playing ↔
      opacity (runTaps N k) 0 = 1) ∧
    ((player (runTaps N k) 1).phase = Phase.Playing ↔
      opacity (runTaps N k) 1 = 1) ∧
    ((player (runTaps N k) (otherId (runTaps N k).activePlayerId)).phase =
        Phase.Ready ∨
     (player (runTaps N k) (otherId (runTaps N k).activePlayerId)).phase =
        Phase.Empty) := by
  obtain ⟨ha, hc, hact, hstb⟩ := inv_runTaps N h k
  set s := runTaps N k with hs
  rcases (by omega : s.activePlayerId = 0 ∨ s.activePlayerId = 1) with h0 | h0
  · have hA : s.playerA = ⟨some s.currentIndex, Phase.Playing⟩ := by
      rw [h0] at hact; simpa [player] using hact
    have hB : s.playerB =
        (if s.currentIndex + 1 < N then
          (⟨some (s.currentIndex + 1), Phase.Ready⟩ : Surface)
         else ⟨none, Phase.Empty⟩) := by
      rw [h0] at hstb; simpa [player, otherId] using hstb
    by_cases hf : s.currentIndex + 1 < N <;> simp only [hf, if_pos, if_neg,
        if_true, if_false] at hB <;>
      refine ⟨?_, ?_, ?_, ?_⟩ <;>
        simp [playingCount, player, opacity, otherId, h0, hA, hB]
  · have hB : s.playerB = ⟨some s.currentIndex, Phase.Playing⟩ := by
      rw [h0] at hact; simpa [player] using hact
    have hA : s.playerA =
        (if s.currentIndex + 1 < N then
          (⟨some (s.currentIndex + 1), Phase.Ready⟩ : Surface)
         else ⟨none, Phase.Empty⟩) := by
      rw [h0] at hstb; simpa [player, otherId] using hstb
    by_cases hf : s.currentIndex + 1 < N <;> simp only [hf, if_pos, if_neg,
        if_true, if_false] at hA <;>
      refine ⟨?_, ?_, ?_, ?_⟩ <;>
        simp [playingCount, player, opacity, otherId, h0, hA, hB]

/-- C8: during Initializing the session always starts, regardless of
whether the playlist's clips could be loaded.  The mount effect runs
while only the loading screen is rendered, so both `Video` refs are null,
the guards of lines 78 and 83 fail, neither `loadAsync` is ever issued —
a load cannot even fail during Initializing — and `setIsReady(true)`
always runs, with no error of any kind surfaced to the host.  This
contradicts the claimed behaviour that a failed load prevents the
transition to Ready and is surfaced as a recoverable cannot-start
error. -/
theorem init_always_ready (N : Nat) (load0Ok load1Ok : Bool) :
    (initializingOutcome N load0Ok load1Ok).ready = true ∧
    (initializingOutcome N load0Ok load1Ok).errorsSurfaced = 0 := by
  rw [initializingOutcome, loadInitialVideos,
    if_neg (by simp), if_neg (by simp)]
  exact ⟨rfl, rfl⟩

/-- C9: during a successful initial load, the sequence of loading-progress
values published to the presentation layer — the initial 0, the interval
ticks, the final 100 — is monotonically non-decreasing for every pair of
consecutive published values, and it ends at 100, whatever number of
interval ticks elapses before the loads resolve. -/
theorem progress_monotone (fuel : Nat) :
    List.Chain' (fun a b => a ≤ b) (publishedProgress fuel) ∧
    (publishedProgress fuel).getLast? = some 100 := by
  constructor
  · show List.Chain (fun a b => a ≤ b) 0 (runInterval 0 fuel ++ [100])
    exact runInterval_chain fuel 0 (by omega)
  · show (0 :: (runInterval 0 fuel ++ [100])).getLast? = some 100
    rw [← List.cons_append]
    exact getLast?_append_singleton (0 :: runInterval 0 fuel) 100

/-- C10: in every state reachable by sequential successful taps, the
active player id equals the cursor modulo 2: the session starts at cursor
0 with player 0 active, and each successful advance increments the cursor
by one and toggles the active id, so even positions play on player A and
odd positions on player B. -/
theorem active_id_is_cursor_parity (N k : Nat) :
    (runTaps N k).activePlayerId = (runTaps N k).currentIndex % 2 := by
  induction k with
  | zero => simp [runTaps, initState]
  | succ k ih =>
    show (sessionStep N (runTaps N k)).activePlayerId =
      (sessionStep N (runTaps N k)).currentIndex % 2
    set s := runTaps N k with hs
    by_cases he : s.exitCount = 0
    · rw [sessionStep, if_pos he]
      by_cases hend : N ≤ s.currentIndex + 1
      · simpa [handleTap, handleTapP, hend] using ih
      · simp only [handleTap, handleTapP, if_neg hend, Bool.false_eq_true,
          if_false, tapRest_activePlayerId, tapRest_currentIndex]
        rw [otherId, ih]
        rcases Nat.mod_two_eq_zero_or_one s.currentIndex with h2 | h2 <;>
          simp [h2] <;> omega
    · rw [sessionStep, if_neg he]; exact ih

end VideoApp
